import Mathlib

/-!
# Verification of the diagram modal zoom/pan coordinate engine

Shallow embedding of `media/scripts/modal-zoom.js`: the zoom controller
(`initializeDisplay`, `changeZoom`, `zoomIn`, `zoomOut`, `reset`), the modal
manager (`closeModal`) and the pan controller (`startDrag`, `drag`).

Modelling conventions:
* JavaScript numbers are modelled by `ℚ` (exact arithmetic); DOM integer
  pixel quantities (`clientWidth`, `clientHeight`, the container's
  `style.width`/`style.height` set from `Math.round`) are modelled by `ℤ`.
* `Math.round` is `jsRound` (round half toward positive infinity).
* DOM measurements read by `initializeDisplay` (`offsetWidth`,
  `scrollWidth`, the first child's bounding rect, the SVG `getBBox`) are an
  input snapshot `Measurement`, since the layout engine producing them is
  outside the program.
* The container's `style.width`/`style.height` are `Option ℤ` (`none` is
  the unset `''` style; `parseInt('') || 0` reads it as `0`).
* Assignments to `viewport.scrollLeft`/`scrollTop` made by the pan
  controller are clamped by the DOM to the valid scroll range; `domClampX`
  and `domClampY` model that clamp.  The `changeZoom` code performs its own
  explicit clamping before assigning.
-/

namespace ModalZoom

/-- JavaScript `Math.round`: round half toward positive infinity. -/
def jsRound (q : ℚ) : ℤ := ⌊q + 1/2⌋

/-- `MIN_ZOOM` constant from the zoom controller. -/
def MIN_ZOOM : ℚ := 10

/-- `MAX_ZOOM` constant from the zoom controller. -/
def MAX_ZOOM : ℚ := 1000

/-- `ZOOM_STEP` constant from the zoom controller. -/
def ZOOM_STEP : ℚ := 10

/-- `VISUAL_MARGIN` constant from `initializeDisplay` (use 95% of viewport). -/
def VISUAL_MARGIN : ℚ := 95/100

/-- The geometry of the (fixed-size) modal viewport element:
`clientWidth`/`clientHeight` (integers in the DOM) and `offsetLeft`/
`offsetTop` used by the pan controller's pointer coordinates. -/
structure Viewport where
  clientWidth : ℤ
  clientHeight : ℤ
  offsetLeft : ℚ
  offsetTop : ℚ
deriving DecidableEq

/-- Snapshot of the DOM measurements read by `initializeDisplay`:
the container's offset sizes, its scroll sizes, the bounding rect of its
first element child (when present), and the width/height of the SVG
`getBBox()` when an SVG is present, the diagram is not PlantUML and the
call succeeds (`none` otherwise). -/
structure Measurement where
  offsetWidth : ℚ
  offsetHeight : ℚ
  scrollWidth : ℚ
  scrollHeight : ℚ
  firstChild : Option (ℚ × ℚ)
  svgBBox : Option (ℚ × ℚ)
deriving DecidableEq

/-- DOM measurements are never negative. -/
def Measurement.Valid (m : Measurement) : Prop :=
  0 ≤ m.offsetWidth ∧ 0 ≤ m.offsetHeight ∧ 0 ≤ m.scrollWidth ∧ 0 ≤ m.scrollHeight ∧
  ∀ c, m.firstChild = some c → 0 ≤ c.1 ∧ 0 ≤ c.2

/-- Width after fallback 1 of `initializeDisplay`: use `scrollWidth` if
`offsetWidth` is 0 (lines 165-174). -/
def fallbackWidth (m : Measurement) : ℚ :=
  if m.offsetWidth = 0 then m.scrollWidth else m.offsetWidth

/-- Height after fallback 1 of `initializeDisplay`. -/
def fallbackHeight (m : Measurement) : ℚ :=
  if m.offsetHeight = 0 then m.scrollHeight else m.offsetHeight

/-- Width after fallback 2 of `initializeDisplay`: when either axis is
still 0, take the first child's bounding-rect width if it is nonzero
(JS `childRect.width || naturalWidth`, lines 177-184). -/
def resolvedWidth (m : Measurement) : ℚ :=
  if fallbackWidth m = 0 ∨ fallbackHeight m = 0 then
    match m.firstChild with
    | some c => if c.1 ≠ 0 then c.1 else fallbackWidth m
    | none => fallbackWidth m
  else fallbackWidth m

/-- Height after fallback 2 of `initializeDisplay`. -/
def resolvedHeight (m : Measurement) : ℚ :=
  if fallbackWidth m = 0 ∨ fallbackHeight m = 0 then
    match m.firstChild with
    | some c => if c.2 ≠ 0 then c.2 else fallbackHeight m
    | none => fallbackHeight m
  else fallbackHeight m

/-- Width after the safety check of `initializeDisplay` (lines 187-191):
when either axis resolves to 0, both are raised to at least 100. -/
def safeWidth (m : Measurement) : ℚ :=
  if resolvedWidth m = 0 ∨ resolvedHeight m = 0 then max (resolvedWidth m) 100
  else resolvedWidth m

/-- Height after the safety check of `initializeDisplay`. -/
def safeHeight (m : Measurement) : ℚ :=
  if resolvedWidth m = 0 ∨ resolvedHeight m = 0 then max (resolvedHeight m) 100
  else resolvedHeight m

/-- The natural content size computed by `initializeDisplay` (lines
165-232): the fallback chain, the safety floor, then the Mermaid
`getBBox` correction which (when a valid bbox is available) replaces the
size with the bbox size plus a 4px margin (`BBOX_MARGIN`). -/
def measureNatural (m : Measurement) : ℚ × ℚ :=
  match m.svgBBox with
  | some b => if 0 < b.1 ∧ 0 < b.2 then (b.1 + 4, b.2 + 4) else (safeWidth m, safeHeight m)
  | none => (safeWidth m, safeHeight m)

/-- The state owned by the zoom controller together with the DOM state it
drives: the container's set style size, the viewport's scroll offsets and
its `centered`/`scrollable` class, and the zoom-level text readout. -/
structure ZoomState where
  currentZoom : ℚ
  initialZoom : ℚ
  fitRatio : ℚ
  naturalWidth : ℚ
  naturalHeight : ℚ
  styleWidth : Option ℤ
  styleHeight : Option ℤ
  scrollLeft : ℚ
  scrollTop : ℚ
  centered : Bool
  zoomLevelDisplay : String
deriving DecidableEq

/-- The controller's initial field values (source lines 141-149) with the
container style unset, scroll at the origin and neither layout class. -/
def initialZoomState : ZoomState :=
  { currentZoom := 100
    initialZoom := 100
    fitRatio := 1
    naturalWidth := 0
    naturalHeight := 0
    styleWidth := none
    styleHeight := none
    scrollLeft := 0
    scrollTop := 0
    centered := false
    zoomLevelDisplay := "100%" }

/-- The container's `offsetWidth` as read back after a style width has
been set (`parseInt(container.style.width) || 0` reads `0` when unset). -/
def offsetW (st : ZoomState) : ℤ := st.styleWidth.getD 0

/-- The container's `offsetHeight` as read back. -/
def offsetH (st : ZoomState) : ℤ := st.styleHeight.getD 0

/-- `getContainerOffsets` (lines 657-670): zero unless the viewport has
the `centered` class, else the flex-centering gap on each axis. -/
def getContainerOffsets (cfg : Viewport) (st : ZoomState) : ℚ × ℚ :=
  if st.centered = false then (0, 0)
  else
    (max 0 (((cfg.clientWidth : ℚ) - (offsetW st : ℚ)) / 2),
     max 0 (((cfg.clientHeight : ℚ) - (offsetH st : ℚ)) / 2))

/-- The zoom-level readout text written by `changeZoom` (`newZoom + '%'`). -/
def zoomText (q : ℚ) : String := toString q ++ "%"

/-- `zoomController.initializeDisplay` (lines 152-357): measures natural
content size, computes the fit ratio capped at 1.0, sizes the container,
resets scroll to the origin, picks the layout mode and resets the zoom
level to 100%.  It writes every field of `ZoomState`, so the input state
is ignored; the measurement snapshot `m` is a parameter. -/
def initializeDisplay (cfg : Viewport) (m : Measurement) (_st : ZoomState) : ZoomState :=
  let n := measureNatural m
  let naturalWidth := n.1
  let naturalHeight := n.2
  let fitRatio0 := min (((cfg.clientWidth : ℚ) * VISUAL_MARGIN) / naturalWidth)
                       (((cfg.clientHeight : ℚ) * VISUAL_MARGIN) / naturalHeight)
  let fitRatio := min fitRatio0 1
  let scaledWidth := jsRound (naturalWidth * fitRatio)
  let scaledHeight := jsRound (naturalHeight * fitRatio)
  { currentZoom := 100
    initialZoom := 100
    fitRatio := fitRatio
    naturalWidth := naturalWidth
    naturalHeight := naturalHeight
    styleWidth := some scaledWidth
    styleHeight := some scaledHeight
    scrollLeft := 0
    scrollTop := 0
    centered := decide (scaledWidth ≤ cfg.clientWidth ∧ scaledHeight ≤ cfg.clientHeight)
    zoomLevelDisplay := "100%" }

/-- The optional anchor argument of `changeZoom` (`options.anchorX`,
`options.anchorY`). -/
structure ZoomOptions where
  anchorX : Option ℚ := none
  anchorY : Option ℚ := none
deriving DecidableEq

/-- `zoomController.changeZoom` (lines 359-529): clamp the target to
`[MIN_ZOOM, MAX_ZOOM]`; no-op when equal to the current zoom or when the
stored natural size is uninitialised; otherwise resize the container to
`round(natural × newScale)`, switch the layout mode per the new size, and
set each axis's scroll to the anchor-preserving position clamped to the
valid range, or 0 on an axis that does not scroll. -/
def changeZoom (cfg : Viewport) (st : ZoomState) (newPercentage : ℚ)
    (options : ZoomOptions) : ZoomState :=
  if st.currentZoom = max MIN_ZOOM (min MAX_ZOOM newPercentage) then st
  else if st.naturalWidth = 0 ∨ st.naturalHeight = 0 then st
  else
    let oldZoom := st.currentZoom
    let newZoom := max MIN_ZOOM (min MAX_ZOOM newPercentage)
    let oldScale := st.fitRatio * (oldZoom / 100)
    let newScale := st.fitRatio * (newZoom / 100)
    let offsets := getContainerOffsets cfg st
    let defaultAnchorX := (cfg.clientWidth : ℚ) / 2 + st.scrollLeft - offsets.1
    let defaultAnchorY := (cfg.clientHeight : ℚ) / 2 + st.scrollTop - offsets.2
    let anchorX := options.anchorX.getD defaultAnchorX
    let anchorY := options.anchorY.getD defaultAnchorY
    let newWidth := jsRound (st.naturalWidth * newScale)
    let newHeight := jsRound (st.naturalHeight * newScale)
    let willHaveHorizontalScroll := cfg.clientWidth < newWidth
    let willHaveVerticalScroll := cfg.clientHeight < newHeight
    let ratio := newScale / oldScale
    let newScrollLeft := anchorX * ratio - (cfg.clientWidth : ℚ) / 2
    let newScrollTop := anchorY * ratio - (cfg.clientHeight : ℚ) / 2
    { st with
      currentZoom := newZoom
      styleWidth := some newWidth
      styleHeight := some newHeight
      centered := decide (newWidth ≤ cfg.clientWidth ∧ newHeight ≤ cfg.clientHeight)
      scrollLeft :=
        if willHaveHorizontalScroll then
          max 0 (min newScrollLeft ((newWidth : ℚ) - (cfg.clientWidth : ℚ)))
        else 0
      scrollTop :=
        if willHaveVerticalScroll then
          max 0 (min newScrollTop ((newHeight : ℚ) - (cfg.clientHeight : ℚ)))
        else 0
      zoomLevelDisplay := zoomText newZoom }

/-- `zoomController.zoomIn` (lines 531-533). -/
def zoomIn (cfg : Viewport) (st : ZoomState) : ZoomState :=
  changeZoom cfg st (st.currentZoom + ZOOM_STEP) {}

/-- `zoomController.zoomOut` (lines 535-537). -/
def zoomOut (cfg : Viewport) (st : ZoomState) : ZoomState :=
  changeZoom cfg st (st.currentZoom - ZOOM_STEP) {}

/-- `zoomController.reset` (lines 539-542): re-invokes `initializeDisplay`. -/
def reset (cfg : Viewport) (m : Measurement) (st : ZoomState) : ZoomState :=
  initializeDisplay cfg m st

/-- Two `zoomIn` steps followed by two `zoomOut` steps. -/
def zoomCycle (cfg : Viewport) (st : ZoomState) : ZoomState :=
  zoomOut cfg (zoomOut cfg (zoomIn cfg (zoomIn cfg st)))

/-- The modal manager's state together with the zoom state and the pieces
of DOM the close path touches: the open flag, the current-diagram
reference, whether the container has content, whether an `img` element is
present and whether its `onload`/`onerror` handlers are attached. -/
structure ModalState where
  zoom : ZoomState
  isModalOpen : Bool
  hasDiagram : Bool
  containerHasContent : Bool
  imgPresent : Bool
  imgOnloadSet : Bool
  imgOnerrorSet : Bool
  ctrlOrMeta : Bool
  altKey : Bool
deriving DecidableEq

/-- `modalZoomManager.closeModal` (lines 68-123): reset viewport scroll,
clear the container's style size, reset the controller fields to their
initial values, null the image handlers, clear the container content,
close the modal and clear the modifier state.  The `centered`/`scrollable`
classes and `initialZoom` are not touched. -/
def closeModal (s : ModalState) : ModalState :=
  { zoom := { s.zoom with
      scrollLeft := 0
      scrollTop := 0
      styleWidth := none
      styleHeight := none
      currentZoom := 100
      fitRatio := 1
      naturalWidth := 0
      naturalHeight := 0
      zoomLevelDisplay := "100%" }
    isModalOpen := false
    hasDiagram := false
    containerHasContent := false
    imgPresent := false
    imgOnloadSet := false
    imgOnerrorSet := false
    ctrlOrMeta := false
    altKey := false }

/-- The pan controller's state (lines 550-555). -/
structure PanState where
  isPanning : Bool
  startX : ℚ
  startY : ℚ
  scrollLeft : ℚ
  scrollTop : ℚ
deriving DecidableEq

/-- The mouse-event fields the pan controller reads. -/
structure MouseEvent where
  button : ℤ
  ctrlKey : Bool
  metaKey : Bool
  altKey : Bool
  pageX : ℚ
  pageY : ℚ
deriving DecidableEq

/-- The DOM clamp applied to an assignment of `viewport.scrollLeft`:
the valid range is `[0, scrollWidth - clientWidth]` where the viewport's
scroll extent is the container width (bounded below by the client width). -/
def domClampX (cfg : Viewport) (st : ZoomState) (x : ℚ) : ℚ :=
  max 0 (min x (max 0 ((offsetW st : ℚ) - (cfg.clientWidth : ℚ))))

/-- The DOM clamp applied to an assignment of `viewport.scrollTop`. -/
def domClampY (cfg : Viewport) (st : ZoomState) (y : ℚ) : ℚ :=
  max 0 (min y (max 0 ((offsetH st : ℚ) - (cfg.clientHeight : ℚ))))

/-- `panController.startDrag` (lines 557-570): only the main button, only
above 100% zoom, only without Ctrl/Meta/Alt; records the pointer start
position (relative to the viewport offset) and the scroll position at
drag start. -/
def startDrag (cfg : Viewport) (zst : ZoomState) (p : PanState) (e : MouseEvent) : PanState :=
  if e.button ≠ 0 then p
  else if zst.currentZoom ≤ 100 then p
  else if e.ctrlKey ∨ e.metaKey ∨ e.altKey then p
  else
    { isPanning := true
      startX := e.pageX - cfg.offsetLeft
      startY := e.pageY - cfg.offsetTop
      scrollLeft := zst.scrollLeft
      scrollTop := zst.scrollTop }

/-- `panController.drag` (lines 572-582): while panning, set the viewport
scroll to the drag-start scroll minus twice the pointer delta; the
assignment itself is clamped by the DOM. -/
def drag (cfg : Viewport) (zst : ZoomState) (p : PanState) (e : MouseEvent) : ZoomState :=
  if p.isPanning = false then zst
  else
    let x := e.pageX - cfg.offsetLeft
    let y := e.pageY - cfg.offsetTop
    let walkX := (x - p.startX) * 2
    let walkY := (y - p.startY) * 2
    { zst with
      scrollLeft := domClampX cfg zst (p.scrollLeft - walkX)
      scrollTop := domClampY cfg zst (p.scrollTop - walkY) }

/-- Zoom states reachable in an open modal once `initializeDisplay` has
completed: the initial display, followed by any interleaving of
`changeZoom` calls (with arbitrary target and anchor) and pan drags. -/
inductive Reachable (cfg : Viewport) (m : Measurement) : ZoomState → Prop
  | init (st₀ : ZoomState) : Reachable cfg m (initializeDisplay cfg m st₀)
  | zoom (st : ZoomState) (p : ℚ) (o : ZoomOptions) :
      Reachable cfg m st → Reachable cfg m (changeZoom cfg st p o)
  | pan (st : ZoomState) (p : PanState) (e : MouseEvent) :
      Reachable cfg m st → Reachable cfg m (drag cfg st p e)

/-- The §3 invariant: the container's set pixel size is
`round(natural × effectiveScale)` with
`effectiveScale = fitRatio × (currentZoomPercent / 100)`. -/
def SizeInvariant (st : ZoomState) : Prop :=
  st.styleWidth = some (jsRound (st.naturalWidth * (st.fitRatio * (st.currentZoom / 100)))) ∧
  st.styleHeight = some (jsRound (st.naturalHeight * (st.fitRatio * (st.currentZoom / 100))))

/-- Horizontal position of the container's geometric center in
viewport-relative coordinates: the centering offset (from the code's own
`getContainerOffsets`) minus the scroll, plus half the container width. -/
def contentCenterX (cfg : Viewport) (st : ZoomState) : ℚ :=
  (getContainerOffsets cfg st).1 - st.scrollLeft + (offsetW st : ℚ) / 2

/-- Vertical position of the container's geometric center in
viewport-relative coordinates. -/
def contentCenterY (cfg : Viewport) (st : ZoomState) : ℚ :=
  (getContainerOffsets cfg st).2 - st.scrollTop + (offsetH st : ℚ) / 2

/-- Interior-step condition for `changeZoom cfg st t {}`: clamping to
`[MIN_ZOOM, MAX_ZOOM]` leaves `t` unchanged and the step changes the zoom;
the natural size and fit ratio are nonzero; the state is in scrollable
mode; the new container size overflows the viewport on both axes; and the
anchor-preserving scroll positions lie inside the valid scroll range, so
no clamp engages. -/
def StepInterior (cfg : Viewport) (st : ZoomState) (t : ℚ) : Prop :=
  st.naturalWidth ≠ 0 ∧ st.naturalHeight ≠ 0 ∧ st.fitRatio ≠ 0 ∧ st.currentZoom ≠ 0 ∧
  st.centered = false ∧
  max MIN_ZOOM (min MAX_ZOOM t) = t ∧ t ≠ st.currentZoom ∧
  cfg.clientWidth < jsRound (st.naturalWidth * (st.fitRatio * (t / 100))) ∧
  cfg.clientHeight < jsRound (st.naturalHeight * (st.fitRatio * (t / 100))) ∧
  0 ≤ ((cfg.clientWidth : ℚ) / 2 + st.scrollLeft) * (t / st.currentZoom)
      - (cfg.clientWidth : ℚ) / 2 ∧
  ((cfg.clientWidth : ℚ) / 2 + st.scrollLeft) * (t / st.currentZoom)
      - (cfg.clientWidth : ℚ) / 2
    ≤ (jsRound (st.naturalWidth * (st.fitRatio * (t / 100))) : ℚ) - (cfg.clientWidth : ℚ) ∧
  0 ≤ ((cfg.clientHeight : ℚ) / 2 + st.scrollTop) * (t / st.currentZoom)
      - (cfg.clientHeight : ℚ) / 2 ∧
  ((cfg.clientHeight : ℚ) / 2 + st.scrollTop) * (t / st.currentZoom)
      - (cfg.clientHeight : ℚ) / 2
    ≤ (jsRound (st.naturalHeight * (st.fitRatio * (t / 100))) : ℚ) - (cfg.clientHeight : ℚ)

/-! ## Concrete instances used by witnesses and counterexamples -/

/-- An 800×600 viewport at the origin. -/
def cexCfg : Viewport := ⟨800, 600, 0, 0⟩

/-- A 100×100 diagram measurement. -/
def cexM : Measurement := ⟨100, 100, 0, 0, none, none⟩

/-- The state `initializeDisplay` produces for `cexCfg`/`cexM`. -/
def cexSt0 : ZoomState := ⟨100, 100, 1, 100, 100, some 100, some 100, 0, 0, true, "100%"⟩

/-- The state after `changeZoom(990)` from `cexSt0` in `cexCfg`. -/
def cexSt990 : ZoomState :=
  ⟨990, 100, 1, 100, 100, some 990, some 990, 95, 195, false, zoomText 990⟩

/-- The state after `zoomIn` from `cexSt990` in `cexCfg`. -/
def cexSt1000 : ZoomState :=
  ⟨1000, 100, 1, 100, 100, some 1000, some 1000, 100, 200, false, zoomText 1000⟩

/-- The state after `zoomOut` from `cexSt990` in `cexCfg`. -/
def cexSt980 : ZoomState :=
  ⟨980, 100, 1, 100, 100, some 980, some 980, 90, 190, false, zoomText 980⟩

/-- A zoomed 2000×1500 diagram state, scrollable on both axes, interior to
all clamps for one in-in-out-out cycle. -/
def c5wit : ZoomState :=
  ⟨100, 100, 1, 2000, 1500, some 2000, some 1500, 300, 200, false, zoomText 100⟩

/-! ## Helper lemmas -/

lemma fallbackWidth_nonneg (m : Measurement) (hm : m.Valid) : 0 ≤ fallbackWidth m := by
  unfold fallbackWidth
  split
  · exact hm.2.2.1
  · exact hm.1

lemma fallbackHeight_nonneg (m : Measurement) (hm : m.Valid) : 0 ≤ fallbackHeight m := by
  unfold fallbackHeight
  split
  · exact hm.2.2.2.1
  · exact hm.2.1

lemma resolvedWidth_nonneg (m : Measurement) (hm : m.Valid) : 0 ≤ resolvedWidth m := by
  unfold resolvedWidth
  split
  · cases hc : m.firstChild with
    | none => exact fallbackWidth_nonneg m hm
    | some c =>
      simp only
      split
      · exact (hm.2.2.2.2 c hc).1
      · exact fallbackWidth_nonneg m hm
  · exact fallbackWidth_nonneg m hm

lemma resolvedHeight_nonneg (m : Measurement) (hm : m.Valid) : 0 ≤ resolvedHeight m := by
  unfold resolvedHeight
  split
  · cases hc : m.firstChild with
    | none => exact fallbackHeight_nonneg m hm
    | some c =>
      simp only
      split
      · exact (hm.2.2.2.2 c hc).2
      · exact fallbackHeight_nonneg m hm
  · exact fallbackHeight_nonneg m hm

lemma safeWidth_pos (m : Measurement) (hm : m.Valid) : 0 < safeWidth m := by
  unfold safeWidth
  split
  · exact lt_of_lt_of_le (by norm_num) (le_max_right _ 100)
  · rename_i h
    push_neg at h
    exact lt_of_le_of_ne (resolvedWidth_nonneg m hm) (Ne.symm h.1)

lemma safeHeight_pos (m : Measurement) (hm : m.Valid) : 0 < safeHeight m := by
  unfold safeHeight
  split
  · exact lt_of_lt_of_le (by norm_num) (le_max_right _ 100)
  · rename_i h
    push_neg at h
    exact lt_of_le_of_ne (resolvedHeight_nonneg m hm) (Ne.symm h.2)

lemma measureNatural_pos (m : Measurement) (hm : m.Valid) :
    0 < (measureNatural m).1 ∧ 0 < (measureNatural m).2 := by
  unfold measureNatural
  cases m.svgBBox with
  | none => exact ⟨safeWidth_pos m hm, safeHeight_pos m hm⟩
  | some b =>
    simp only
    split
    · rename_i h
      exact ⟨show (0:ℚ) < b.1 + 4 by linarith [h.1], show (0:ℚ) < b.2 + 4 by linarith [h.2]⟩
    · exact ⟨safeWidth_pos m hm, safeHeight_pos m hm⟩

/-- Projection: the fit ratio computed by `initializeDisplay`. -/
lemma initializeDisplay_fitRatio_def (cfg : Viewport) (m : Measurement) (st : ZoomState) :
    (initializeDisplay cfg m st).fitRatio =
      min (min (((cfg.clientWidth : ℚ) * VISUAL_MARGIN) / (measureNatural m).1)
               (((cfg.clientHeight : ℚ) * VISUAL_MARGIN) / (measureNatural m).2)) 1 := rfl

/-- Projection: the container style width set by `initializeDisplay`. -/
lemma initializeDisplay_styleWidth_def (cfg : Viewport) (m : Measurement) (st : ZoomState) :
    (initializeDisplay cfg m st).styleWidth =
      some (jsRound ((measureNatural m).1 * (initializeDisplay cfg m st).fitRatio)) := rfl

/-- Projection: the container style height set by `initializeDisplay`. -/
lemma initializeDisplay_styleHeight_def (cfg : Viewport) (m : Measurement) (st : ZoomState) :
    (initializeDisplay cfg m st).styleHeight =
      some (jsRound ((measureNatural m).2 * (initializeDisplay cfg m st).fitRatio)) := rfl

/-- Projection: the layout mode chosen by `initializeDisplay`. -/
lemma initializeDisplay_centered_def (cfg : Viewport) (m : Measurement) (st : ZoomState) :
    (initializeDisplay cfg m st).centered =
      decide (jsRound ((measureNatural m).1 * (initializeDisplay cfg m st).fitRatio)
                ≤ cfg.clientWidth ∧
              jsRound ((measureNatural m).2 * (initializeDisplay cfg m st).fitRatio)
                ≤ cfg.clientHeight) := rfl

/-- A quantity at most 95% of a nonnegative integer client size rounds to
at most the client size. -/
lemma jsRound_le_client (x : ℚ) (c : ℤ) (hc : 0 ≤ c) (h : x ≤ (c : ℚ) * (95/100)) :
    jsRound x ≤ c := by
  unfold jsRound
  rw [Int.floor_le_iff]
  have hcq : (0 : ℚ) ≤ (c : ℚ) := Int.cast_nonneg.mpr hc
  nlinarith

/-- After `initializeDisplay` the scaled content fits the viewport on both
axes, the layout mode is `centered`, and the content's geometric center
coincides with the viewport's center on both axes. -/
lemma initializeDisplay_centered_spec (cfg : Viewport) (m : Measurement) (st : ZoomState)
    (hcw : 0 ≤ cfg.clientWidth) (hch : 0 ≤ cfg.clientHeight) (hm : m.Valid) :
    (initializeDisplay cfg m st).centered = true ∧
    contentCenterX cfg (initializeDisplay cfg m st) = (cfg.clientWidth : ℚ) / 2 ∧
    contentCenterY cfg (initializeDisplay cfg m st) = (cfg.clientHeight : ℚ) / 2 := by
  obtain ⟨hposW, hposH⟩ := measureNatural_pos m hm
  have hfit := initializeDisplay_fitRatio_def cfg m st
  have hfitA : (initializeDisplay cfg m st).fitRatio
      ≤ ((cfg.clientWidth : ℚ) * VISUAL_MARGIN) / (measureNatural m).1 := by
    rw [hfit]; exact le_trans (min_le_left _ _) (min_le_left _ _)
  have hfitB : (initializeDisplay cfg m st).fitRatio
      ≤ ((cfg.clientHeight : ℚ) * VISUAL_MARGIN) / (measureNatural m).2 := by
    rw [hfit]; exact le_trans (min_le_left _ _) (min_le_right _ _)
  have hW : (measureNatural m).1 * (initializeDisplay cfg m st).fitRatio
      ≤ (cfg.clientWidth : ℚ) * (95/100) := by
    have := (le_div_iff₀ hposW).mp hfitA
    rw [VISUAL_MARGIN] at this
    linarith
  have hH : (measureNatural m).2 * (initializeDisplay cfg m st).fitRatio
      ≤ (cfg.clientHeight : ℚ) * (95/100) := by
    have := (le_div_iff₀ hposH).mp hfitB
    rw [VISUAL_MARGIN] at this
    linarith
  have hsw : jsRound ((measureNatural m).1 * (initializeDisplay cfg m st).fitRatio)
      ≤ cfg.clientWidth := jsRound_le_client _ _ hcw hW
  have hsh : jsRound ((measureNatural m).2 * (initializeDisplay cfg m st).fitRatio)
      ≤ cfg.clientHeight := jsRound_le_client _ _ hch hH
  have hcent : (initializeDisplay cfg m st).centered = true := by
    rw [initializeDisplay_centered_def, decide_eq_true_eq]
    exact ⟨hsw, hsh⟩
  refine ⟨hcent, ?_, ?_⟩
  · unfold contentCenterX getContainerOffsets
    rw [hcent]
    have hw0 : (0 : ℚ) ≤ ((cfg.clientWidth : ℚ) - (offsetW (initializeDisplay cfg m st) : ℚ)) / 2 := by
      have : (offsetW (initializeDisplay cfg m st) : ℚ) ≤ (cfg.clientWidth : ℚ) := by
        exact_mod_cast hsw
      linarith
    simp only [Bool.true_eq_false, if_false]
    rw [max_eq_right hw0]
    show ((cfg.clientWidth : ℚ) - (offsetW (initializeDisplay cfg m st) : ℚ)) / 2 - 0
        + (offsetW (initializeDisplay cfg m st) : ℚ) / 2 = (cfg.clientWidth : ℚ) / 2
    ring
  · unfold contentCenterY getContainerOffsets
    rw [hcent]
    have hh0 : (0 : ℚ) ≤ ((cfg.clientHeight : ℚ) - (offsetH (initializeDisplay cfg m st) : ℚ)) / 2 := by
      have : (offsetH (initializeDisplay cfg m st) : ℚ) ≤ (cfg.clientHeight : ℚ) := by
        exact_mod_cast hsh
      linarith
    simp only [Bool.true_eq_false, if_false]
    rw [max_eq_right hh0]
    show ((cfg.clientHeight : ℚ) - (offsetH (initializeDisplay cfg m st) : ℚ)) / 2 - 0
        + (offsetH (initializeDisplay cfg m st) : ℚ) / 2 = (cfg.clientHeight : ℚ) / 2
    ring

/-- `getContainerOffsets` vanishes in scrollable mode. -/
lemma getContainerOffsets_scrollable (cfg : Viewport) (st : ZoomState)
    (h : st.centered = false) : getContainerOffsets cfg st = (0, 0) := by
  unfold getContainerOffsets
  rw [if_pos h]

/-- Closed form of an interior `changeZoom` step: the container is resized
per the invariant, both axes stay scrollable, and the scroll becomes
exactly the anchor-preserving position (viewport-center anchor), with the
scale ratio reduced to `t / currentZoom`. -/
lemma changeZoom_interior (cfg : Viewport) (st : ZoomState) (t : ℚ)
    (h : StepInterior cfg st t) :
    changeZoom cfg st t {} =
      { st with
        currentZoom := t
        styleWidth := some (jsRound (st.naturalWidth * (st.fitRatio * (t / 100))))
        styleHeight := some (jsRound (st.naturalHeight * (st.fitRatio * (t / 100))))
        centered := false
        scrollLeft := ((cfg.clientWidth : ℚ) / 2 + st.scrollLeft) * (t / st.currentZoom)
          - (cfg.clientWidth : ℚ) / 2
        scrollTop := ((cfg.clientHeight : ℚ) / 2 + st.scrollTop) * (t / st.currentZoom)
          - (cfg.clientHeight : ℚ) / 2
        zoomLevelDisplay := zoomText t } := by
  obtain ⟨hW, hH, hfit, hz, hcent, hclamp, hne, hsw, hsh, hx0, hx1, hy0, hy1⟩ := h
  have hratio : (st.fitRatio * (t / 100)) / (st.fitRatio * (st.currentZoom / 100))
      = t / st.currentZoom := by
    rw [mul_div_mul_left _ _ hfit]
    rw [div_div_div_comm]
    norm_num
  unfold changeZoom
  rw [hclamp, if_neg (fun hc => hne hc.symm), if_neg (by simp [hW, hH])]
  simp only [getContainerOffsets_scrollable cfg st hcent, Option.getD, hratio,
    ZoomState.mk.injEq]
  refine ⟨trivial, trivial, trivial, trivial, trivial, trivial, trivial, ?_, ?_, ?_, trivial⟩
  · rw [if_pos hsw, sub_zero, min_eq_left hx1, max_eq_right hx0]
  · rw [if_pos hsh, sub_zero, min_eq_left hy1, max_eq_right hy0]
  · exact decide_eq_false (fun hc => not_le.mpr hsw hc.1)

/-- The in-in-out-out zoom cycle restores the exact state when the state
satisfies the size invariant, its display matches its zoom level, and all
four steps are interior (no clamp engages, both axes scrollable). -/
lemma zoomCycle_eq_of_interior (cfg : Viewport) (st : ZoomState)
    (hinv : SizeInvariant st)
    (hdisp : st.zoomLevelDisplay = zoomText st.currentZoom)
    (h1 : StepInterior cfg st (st.currentZoom + ZOOM_STEP))
    (h2 : StepInterior cfg (zoomIn cfg st) ((zoomIn cfg st).currentZoom + ZOOM_STEP))
    (h3 : StepInterior cfg (zoomIn cfg (zoomIn cfg st))
      ((zoomIn cfg (zoomIn cfg st)).currentZoom - ZOOM_STEP))
    (h4 : StepInterior cfg (zoomOut cfg (zoomIn cfg (zoomIn cfg st)))
      ((zoomOut cfg (zoomIn cfg (zoomIn cfg st))).currentZoom - ZOOM_STEP)) :
    zoomCycle cfg st = st := by
  obtain ⟨z, iz, fr, nw, nh, sw, sh, sl, stp, c, d⟩ := st
  have hz : z ≠ 0 := h1.2.2.2.1
  have hcent : c = false := h1.2.2.2.2.1
  have e1 := changeZoom_interior cfg _ _ h1
  simp only [zoomIn] at h2 h3 h4
  simp only [zoomOut] at h4
  rw [e1] at h2 h3 h4
  try dsimp only at e1 h2 h3 h4
  have hz1 : z + ZOOM_STEP ≠ 0 := h2.2.2.2.1
  have e2 := changeZoom_interior cfg _ _ h2
  rw [e2] at h3 h4
  try dsimp only at e2 h3 h4
  have hz2 : z + ZOOM_STEP + ZOOM_STEP ≠ 0 := h3.2.2.2.1
  have e3 := changeZoom_interior cfg _ _ h3
  rw [e3] at h4
  try dsimp only at e3 h4
  have e4 := changeZoom_interior cfg _ _ h4
  try dsimp only at e4
  unfold zoomCycle
  simp only [zoomIn, zoomOut]
  try dsimp only
  rw [e1]
  try dsimp only
  rw [e2]
  try dsimp only
  rw [e3]
  try dsimp only
  rw [e4]
  have ht : z + ZOOM_STEP + ZOOM_STEP - ZOOM_STEP - ZOOM_STEP = z := by ring
  simp only [ZoomState.mk.injEq]
  refine ⟨by ring, trivial, trivial, trivial, trivial, ?_, ?_, ?_, ?_, hcent.symm, ?_⟩
  · rw [ht]
    exact hinv.1.symm
  · rw [ht]
    exact hinv.2.symm
  · field_simp
    ring
  · field_simp
    ring
  · rw [ht]
    exact hdisp.symm

/-- `cexM` is a valid measurement. -/
lemma cexM_valid : cexM.Valid :=
  ⟨by norm_num [cexM], by norm_num [cexM], by norm_num [cexM], by norm_num [cexM],
   fun c hc => nomatch hc⟩

/-- Evaluation: the initial display for `cexCfg`/`cexM`. -/
lemma cex_init : initializeDisplay cexCfg cexM initialZoomState = cexSt0 := by
  norm_num [initializeDisplay, cexCfg, cexM, cexSt0, measureNatural, safeWidth, safeHeight,
    resolvedWidth, resolvedHeight, fallbackWidth, fallbackHeight, VISUAL_MARGIN, jsRound]

/-- Evaluation: `changeZoom(990)` from the initial display. -/
lemma cex_to990 : changeZoom cexCfg cexSt0 990 {} = cexSt990 := by
  norm_num [changeZoom, cexCfg, cexSt0, cexSt990, getContainerOffsets, offsetW, offsetH,
    MIN_ZOOM, MAX_ZOOM, jsRound, min_def, max_def]

/-- Evaluation: `zoomIn` from 990% hits the 1000% ceiling. -/
lemma cex_in1 : zoomIn cexCfg cexSt990 = cexSt1000 := by
  norm_num [zoomIn, changeZoom, cexCfg, cexSt990, cexSt1000, getContainerOffsets,
    offsetW, offsetH, MIN_ZOOM, MAX_ZOOM, ZOOM_STEP, jsRound, min_def, max_def]

/-- Evaluation: `zoomIn` at the 1000% ceiling is a no-op. -/
lemma cex_in2 : zoomIn cexCfg cexSt1000 = cexSt1000 := by
  norm_num [zoomIn, changeZoom, cexCfg, cexSt1000, MIN_ZOOM, MAX_ZOOM, ZOOM_STEP,
    min_def, max_def]

/-- Evaluation: `zoomOut` from 1000% lands on 990%. -/
lemma cex_out1 : zoomOut cexCfg cexSt1000 = cexSt990 := by
  norm_num [zoomOut, changeZoom, cexCfg, cexSt990, cexSt1000, getContainerOffsets,
    offsetW, offsetH, MIN_ZOOM, MAX_ZOOM, ZOOM_STEP, jsRound, min_def, max_def]

/-- Evaluation: `zoomOut` from 990% lands on 980%. -/
lemma cex_out2 : zoomOut cexCfg cexSt990 = cexSt980 := by
  norm_num [zoomOut, changeZoom, cexCfg, cexSt990, cexSt980, getContainerOffsets,
    offsetW, offsetH, MIN_ZOOM, MAX_ZOOM, ZOOM_STEP, jsRound, min_def, max_def]

/-! ## Claims -/

/-- C10: if the stored natural width or height is 0 (`changeZoom` invoked
before `initializeDisplay`, or after `closeModal` reset the natural
dimensions), `changeZoom` leaves the entire state — zoom percent,
container size, scroll offsets and the zoom-level display — unchanged. -/
theorem changeZoom_uninitialized_noop (cfg : Viewport) (st : ZoomState)
    (p : ℚ) (o : ZoomOptions) (h : st.naturalWidth = 0 ∨ st.naturalHeight = 0) :
    changeZoom cfg st p o = st := by
  unfold changeZoom
  split <;> first
    | rfl
    | (rename_i hn; exact absurd h hn)

theorem changeZoom_uninitialized_noop_witness :
    changeZoom ⟨800, 600, 0, 0⟩ initialZoomState 250 {} = initialZoomState :=
  changeZoom_uninitialized_noop _ _ _ _ (Or.inl rfl)

/-- C7: `closeModal` resets the zoom state to its initial values
(zoom 100%, fit ratio 1.0, natural dimensions cleared, display reset),
resets the scroll to the origin, clears the container style size and
contents, nulls the pending image load/error handlers, closes the modal,
and is idempotent. -/
theorem closeModal_resets (s : ModalState) :
    (closeModal s).zoom.currentZoom = 100 ∧
    (closeModal s).zoom.fitRatio = 1 ∧
    (closeModal s).zoom.naturalWidth = 0 ∧
    (closeModal s).zoom.naturalHeight = 0 ∧
    (closeModal s).zoom.scrollLeft = 0 ∧
    (closeModal s).zoom.scrollTop = 0 ∧
    (closeModal s).zoom.styleWidth = none ∧
    (closeModal s).zoom.styleHeight = none ∧
    (closeModal s).zoom.zoomLevelDisplay = "100%" ∧
    (closeModal s).containerHasContent = false ∧
    (closeModal s).imgOnloadSet = false ∧
    (closeModal s).imgOnerrorSet = false ∧
    (closeModal s).isModalOpen = false ∧
    closeModal (closeModal s) = closeModal s :=
  ⟨rfl, rfl, rfl, rfl, rfl, rfl, rfl, rfl, rfl, rfl, rfl, rfl, rfl, rfl⟩

/-- C4: `changeZoom` clamps every target to `[MIN_ZOOM, MAX_ZOOM]` and
no-ops when the clamped target equals the current level; the resulting
zoom level stays in `[10, 1000]`; at 1000% a further `zoomIn` is a no-op
and at 10% a further `zoomOut` is a no-op. -/
theorem changeZoom_clamped (cfg : Viewport) (st : ZoomState) (p : ℚ) (o : ZoomOptions) :
    (max MIN_ZOOM (min MAX_ZOOM p) = st.currentZoom → changeZoom cfg st p o = st) ∧
    (10 ≤ st.currentZoom → st.currentZoom ≤ 1000 →
      10 ≤ (changeZoom cfg st p o).currentZoom ∧ (changeZoom cfg st p o).currentZoom ≤ 1000) ∧
    (st.currentZoom = 1000 → zoomIn cfg st = st) ∧
    (st.currentZoom = 10 → zoomOut cfg st = st) := by
  refine ⟨fun h => ?_, fun h10 h1000 => ?_, fun hmax => ?_, fun hmin => ?_⟩
  · unfold changeZoom
    rw [if_pos h.symm]
  · unfold changeZoom
    split
    · exact ⟨h10, h1000⟩
    · split
      · exact ⟨h10, h1000⟩
      · show 10 ≤ max MIN_ZOOM (min MAX_ZOOM p) ∧ max MIN_ZOOM (min MAX_ZOOM p) ≤ 1000
        constructor
        · exact le_trans (by norm_num [MIN_ZOOM]) (le_max_left _ _)
        · exact max_le (by norm_num [MIN_ZOOM]) (le_trans (min_le_left _ _) (by norm_num [MAX_ZOOM]))
  · unfold zoomIn changeZoom
    have hc : st.currentZoom = max MIN_ZOOM (min MAX_ZOOM (st.currentZoom + ZOOM_STEP)) := by
      rw [hmax, ZOOM_STEP, MIN_ZOOM, MAX_ZOOM,
        min_eq_left (by norm_num), max_eq_right (by norm_num)]
    rw [if_pos hc]
  · unfold zoomOut changeZoom
    have hc : st.currentZoom = max MIN_ZOOM (min MAX_ZOOM (st.currentZoom - ZOOM_STEP)) := by
      rw [hmin, ZOOM_STEP, MIN_ZOOM, MAX_ZOOM]
      rw [show (10:ℚ) - 10 = 0 by norm_num,
        min_eq_right (by norm_num), max_eq_left (by norm_num)]
    rw [if_pos hc]

theorem changeZoom_clamped_witness :
    changeZoom ⟨800, 600, 0, 0⟩ initialZoomState 100 {} = initialZoomState ∧
    (10 ≤ (changeZoom ⟨800, 600, 0, 0⟩ initialZoomState 5000 {}).currentZoom ∧
      (changeZoom ⟨800, 600, 0, 0⟩ initialZoomState 5000 {}).currentZoom ≤ 1000) ∧
    zoomIn ⟨800, 600, 0, 0⟩ { initialZoomState with currentZoom := 1000 } =
      { initialZoomState with currentZoom := 1000 } ∧
    zoomOut ⟨800, 600, 0, 0⟩ { initialZoomState with currentZoom := 10 } =
      { initialZoomState with currentZoom := 10 } :=
  ⟨(changeZoom_clamped _ _ _ _).1 (by norm_num [MIN_ZOOM, MAX_ZOOM, initialZoomState]),
   (changeZoom_clamped _ _ _ _).2.1 (by norm_num [initialZoomState]) (by norm_num [initialZoomState]),
   (changeZoom_clamped _ _ 0 {}).2.2.1 rfl,
   (changeZoom_clamped _ _ 0 {}).2.2.2 rfl⟩

/-- C2: `initializeDisplay` computes
`fitRatio = min(1, min(viewportW×0.95/naturalW, viewportH×0.95/naturalH))`,
and whenever 95% of the viewport strictly exceeds the measured natural
size on both axes the fit ratio is exactly 1 (no upscaling). -/
theorem initializeDisplay_fitRatio (cfg : Viewport) (m : Measurement) (st : ZoomState)
    (hm : m.Valid) :
    (initializeDisplay cfg m st).fitRatio =
      min 1 (min (((cfg.clientWidth : ℚ) * (95/100)) / (measureNatural m).1)
                 (((cfg.clientHeight : ℚ) * (95/100)) / (measureNatural m).2)) ∧
    ((measureNatural m).1 < (cfg.clientWidth : ℚ) * (95/100) →
     (measureNatural m).2 < (cfg.clientHeight : ℚ) * (95/100) →
     (initializeDisplay cfg m st).fitRatio = 1) := by
  have hpos := measureNatural_pos m hm
  constructor
  · unfold initializeDisplay
    simp only [VISUAL_MARGIN]
    rw [min_comm]
  · intro hw hh
    unfold initializeDisplay
    simp only [VISUAL_MARGIN]
    have h1 : 1 < ((cfg.clientWidth : ℚ) * (95/100)) / (measureNatural m).1 :=
      (one_lt_div hpos.1).mpr hw
    have h2 : 1 < ((cfg.clientHeight : ℚ) * (95/100)) / (measureNatural m).2 :=
      (one_lt_div hpos.2).mpr hh
    rw [min_eq_right (le_min h1.le h2.le)]

theorem initializeDisplay_fitRatio_witness :
    (initializeDisplay ⟨800, 600, 0, 0⟩ ⟨600, 400, 0, 0, none, none⟩ initialZoomState).fitRatio
      = 1 := by
  have h := (initializeDisplay_fitRatio ⟨800, 600, 0, 0⟩ ⟨600, 400, 0, 0, none, none⟩
    initialZoomState
    ⟨by norm_num, by norm_num, by norm_num, by norm_num, fun c hc => nomatch hc⟩).2
  apply h <;>
    norm_num [measureNatural, safeWidth, safeHeight, resolvedWidth, resolvedHeight,
      fallbackWidth, fallbackHeight]

/-- C8: when the natural size resolves to 0 on both axes after the
offset-size, scroll-size and first-child fallbacks (and no SVG bounding
box is available), `initializeDisplay` substitutes the minimum safe size
100×100 and proceeds: the fit ratio is computed with denominator 100 (no
division by zero) and the state is fully formed at 100% zoom. -/
theorem initializeDisplay_measurement_failure (cfg : Viewport) (m : Measurement)
    (st : ZoomState) (hw : resolvedWidth m = 0) (hh : resolvedHeight m = 0)
    (hb : m.svgBBox = none) :
    (initializeDisplay cfg m st).naturalWidth = 100 ∧
    (initializeDisplay cfg m st).naturalHeight = 100 ∧
    (initializeDisplay cfg m st).fitRatio =
      min 1 (min (((cfg.clientWidth : ℚ) * (95/100)) / 100)
                 (((cfg.clientHeight : ℚ) * (95/100)) / 100)) ∧
    (initializeDisplay cfg m st).currentZoom = 100 ∧
    (initializeDisplay cfg m st).scrollLeft = 0 ∧
    (initializeDisplay cfg m st).scrollTop = 0 := by
  have hmw : (measureNatural m).1 = 100 := by
    unfold measureNatural safeWidth
    rw [hb]
    simp [hw, hh]
  have hmh : (measureNatural m).2 = 100 := by
    unfold measureNatural safeHeight
    rw [hb]
    simp [hw, hh]
  refine ⟨?_, ?_, ?_, rfl, rfl, rfl⟩
  · show (measureNatural m).1 = 100
    exact hmw
  · show (measureNatural m).2 = 100
    exact hmh
  · show min (min _ _) 1 = _
    rw [hmw, hmh, min_comm, VISUAL_MARGIN]

/-- C1: for every `changeZoom` call whose clamped target differs from the
current zoom (and with initialised natural size), the new scroll offset on
each axis is `anchor × r − viewportClientSize/2` with `r = newScale/oldScale`
and `scale = fitRatio × (zoomPercent/100)`, the anchor defaulting to the
viewport center in content coordinates, clamped to the valid scroll range
`[0, containerSize − viewportClientSize]`, and forced to 0 on an axis whose
new container size does not exceed the viewport client size. -/
theorem changeZoom_anchor_scroll (cfg : Viewport) (st : ZoomState) (p : ℚ) (o : ZoomOptions)
    (hW : st.naturalWidth ≠ 0) (hH : st.naturalHeight ≠ 0)
    (hne : max MIN_ZOOM (min MAX_ZOOM p) ≠ st.currentZoom) :
    (changeZoom cfg st p o).scrollLeft =
      (if cfg.clientWidth
          < jsRound (st.naturalWidth * (st.fitRatio * (max MIN_ZOOM (min MAX_ZOOM p) / 100)))
       then
        max 0 (min
          (o.anchorX.getD
              ((cfg.clientWidth : ℚ) / 2 + st.scrollLeft - (getContainerOffsets cfg st).1)
            * ((st.fitRatio * (max MIN_ZOOM (min MAX_ZOOM p) / 100))
                / (st.fitRatio * (st.currentZoom / 100)))
            - (cfg.clientWidth : ℚ) / 2)
          ((jsRound (st.naturalWidth * (st.fitRatio * (max MIN_ZOOM (min MAX_ZOOM p) / 100))) : ℚ)
            - (cfg.clientWidth : ℚ)))
       else 0) ∧
    (changeZoom cfg st p o).scrollTop =
      (if cfg.clientHeight
          < jsRound (st.naturalHeight * (st.fitRatio * (max MIN_ZOOM (min MAX_ZOOM p) / 100)))
       then
        max 0 (min
          (o.anchorY.getD
              ((cfg.clientHeight : ℚ) / 2 + st.scrollTop - (getContainerOffsets cfg st).2)
            * ((st.fitRatio * (max MIN_ZOOM (min MAX_ZOOM p) / 100))
                / (st.fitRatio * (st.currentZoom / 100)))
            - (cfg.clientHeight : ℚ) / 2)
          ((jsRound (st.naturalHeight * (st.fitRatio * (max MIN_ZOOM (min MAX_ZOOM p) / 100))) : ℚ)
            - (cfg.clientHeight : ℚ)))
       else 0) := by
  unfold changeZoom
  rw [if_neg (fun hc => hne hc.symm), if_neg (by simp [hW, hH])]
  exact ⟨rfl, rfl⟩

theorem changeZoom_anchor_scroll_witness :
    (changeZoom cexCfg cexSt0 990 {}).scrollLeft = 95 ∧
    (changeZoom cexCfg cexSt0 990 {}).scrollTop = 195 := by
  have h := changeZoom_anchor_scroll cexCfg cexSt0 990 {}
    (by norm_num [cexSt0]) (by norm_num [cexSt0])
    (by rw [MIN_ZOOM, MAX_ZOOM, min_eq_right (by norm_num), max_eq_right (by norm_num)]
        norm_num [cexSt0])
  rw [h.1, h.2, MIN_ZOOM, MAX_ZOOM, min_eq_right (by norm_num), max_eq_right (by norm_num)]
  norm_num [cexSt0, cexCfg, jsRound, getContainerOffsets, offsetW, offsetH, min_def, max_def]

/-- C3: every state reachable in an open modal (after `initializeDisplay`,
closed under arbitrary `changeZoom` calls and pan drags) satisfies the
size invariant: the container pixel size is
`round(naturalWidth × effectiveScale) × round(naturalHeight × effectiveScale)`
with `effectiveScale = fitRatio × (currentZoomPercent/100)`. -/
theorem reachable_size_invariant (cfg : Viewport) (m : Measurement) (st : ZoomState)
    (h : Reachable cfg m st) : SizeInvariant st := by
  induction h with
  | init st₀ =>
    constructor
    · rw [initializeDisplay_styleWidth_def]
      norm_num [initializeDisplay]
    · rw [initializeDisplay_styleHeight_def]
      norm_num [initializeDisplay]
  | zoom st p o _ ih =>
    unfold changeZoom
    split
    · exact ih
    · split
      · exact ih
      · exact ⟨rfl, rfl⟩
  | pan st p e _ ih =>
    unfold drag
    split
    · exact ih
    · exact ⟨ih.1, ih.2⟩

theorem reachable_size_invariant_witness :
    SizeInvariant (initializeDisplay cexCfg cexM initialZoomState) :=
  reachable_size_invariant cexCfg cexM _ (Reachable.init initialZoomState)

/-- C6: `reset` (which just re-invokes `initializeDisplay`) is idempotent,
and from any prior state it restores `currentZoomPercent = 100`, scroll
offsets exactly (0, 0), and the content centered on the viewport center
(0px ≤ 5px tolerance on both axes). -/
theorem reset_restores (cfg : Viewport) (m : Measurement) (st : ZoomState)
    (hcw : 0 ≤ cfg.clientWidth) (hch : 0 ≤ cfg.clientHeight) (hm : m.Valid) :
    reset cfg m (reset cfg m st) = reset cfg m st ∧
    (reset cfg m st).currentZoom = 100 ∧
    (reset cfg m st).scrollLeft = 0 ∧
    (reset cfg m st).scrollTop = 0 ∧
    |contentCenterX cfg (reset cfg m st) - (cfg.clientWidth : ℚ) / 2| ≤ 5 ∧
    |contentCenterY cfg (reset cfg m st) - (cfg.clientHeight : ℚ) / 2| ≤ 5 := by
  obtain ⟨-, hcx, hcy⟩ := initializeDisplay_centered_spec cfg m st hcw hch hm
  refine ⟨rfl, rfl, rfl, rfl, ?_, ?_⟩
  · rw [show reset cfg m st = initializeDisplay cfg m st from rfl, hcx]
    norm_num
  · rw [show reset cfg m st = initializeDisplay cfg m st from rfl, hcy]
    norm_num

theorem reset_restores_witness :
    (reset cexCfg cexM initialZoomState).currentZoom = 100 ∧
    (reset cexCfg cexM initialZoomState).scrollLeft = 0 ∧
    (reset cexCfg cexM initialZoomState).scrollTop = 0 ∧
    |contentCenterX cexCfg (reset cexCfg cexM initialZoomState)
        - (cexCfg.clientWidth : ℚ) / 2| ≤ 5 := by
  have h := reset_restores cexCfg cexM initialZoomState
    (by norm_num [cexCfg]) (by norm_num [cexCfg]) cexM_valid
  exact ⟨h.2.1, h.2.2.1, h.2.2.2.1, h.2.2.2.2.1⟩

/-- C9: drag-based panning: a drag start at zoom ≤ 100% changes nothing;
a drag started at zoom > 100% with the main button and no modifier keys
sets the scroll on each axis to the drag-start scroll minus twice the
pointer delta, subject only to the DOM's own scroll clamp. -/
theorem pan_drag_spec (cfg : Viewport) (zst zst' : ZoomState) (p : PanState)
    (e₀ e : MouseEvent) (hbtn : e₀.button = 0) (hzoom : 100 < zst.currentZoom)
    (hctrl : e₀.ctrlKey = false) (hmeta : e₀.metaKey = false) (halt : e₀.altKey = false) :
    (∀ q : ZoomState, q.currentZoom ≤ 100 → startDrag cfg q p e₀ = p) ∧
    (drag cfg zst' (startDrag cfg zst p e₀) e).scrollLeft =
      domClampX cfg zst' (zst.scrollLeft - (e.pageX - e₀.pageX) * 2) ∧
    (drag cfg zst' (startDrag cfg zst p e₀) e).scrollTop =
      domClampY cfg zst' (zst.scrollTop - (e.pageY - e₀.pageY) * 2) := by
  have hp' : startDrag cfg zst p e₀ =
      ⟨true, e₀.pageX - cfg.offsetLeft, e₀.pageY - cfg.offsetTop,
       zst.scrollLeft, zst.scrollTop⟩ := by
    unfold startDrag
    rw [if_neg (fun hc => hc hbtn), if_neg (not_le.mpr hzoom),
      if_neg (by simp [hctrl, hmeta, halt])]
  refine ⟨fun q hq => ?_, ?_, ?_⟩
  · unfold startDrag
    split
    · rfl
    · rfl
  · rw [hp']
    unfold drag
    rw [if_neg (by simp)]
    show domClampX cfg zst'
        (zst.scrollLeft - (e.pageX - cfg.offsetLeft - (e₀.pageX - cfg.offsetLeft)) * 2) = _
    congr 1
    ring
  · rw [hp']
    unfold drag
    rw [if_neg (by simp)]
    show domClampY cfg zst'
        (zst.scrollTop - (e.pageY - cfg.offsetTop - (e₀.pageY - cfg.offsetTop)) * 2) = _
    congr 1
    ring

theorem pan_drag_spec_witness :
    (drag cexCfg { cexSt0 with styleWidth := some 1000, styleHeight := some 900 }
      (startDrag cexCfg { cexSt0 with currentZoom := 200, scrollLeft := 50, scrollTop := 60 }
        ⟨false, 0, 0, 0, 0⟩ ⟨0, false, false, false, 10, 20⟩)
      ⟨0, false, false, false, 13, 18⟩).scrollLeft = 44 ∧
    (drag cexCfg { cexSt0 with styleWidth := some 1000, styleHeight := some 900 }
      (startDrag cexCfg { cexSt0 with currentZoom := 200, scrollLeft := 50, scrollTop := 60 }
        ⟨false, 0, 0, 0, 0⟩ ⟨0, false, false, false, 10, 20⟩)
      ⟨0, false, false, false, 13, 18⟩).scrollTop = 64 := by
  have h := pan_drag_spec cexCfg
    { cexSt0 with currentZoom := 200, scrollLeft := 50, scrollTop := 60 }
    { cexSt0 with styleWidth := some 1000, styleHeight := some 900 }
    ⟨false, 0, 0, 0, 0⟩ ⟨0, false, false, false, 10, 20⟩ ⟨0, false, false, false, 13, 18⟩
    rfl (by norm_num) rfl rfl rfl
  rw [h.2.1, h.2.2]
  norm_num [domClampX, domClampY, cexCfg, cexSt0, offsetW, offsetH, min_def, max_def]

/-- C5 counterexample: the zoom-990% state reached (in an open modal on an
800×600 viewport showing a 100×100 diagram) by `initializeDisplay`
followed by `changeZoom(990)`; the in-in-out-out cycle ends at 980%, not
990%, because the second `zoomIn` clamps at the 1000% ceiling. -/
theorem zoomCycle_cex :
    Reachable cexCfg cexM cexSt990 ∧
    (zoomCycle cexCfg cexSt990).currentZoom ≠ cexSt990.currentZoom := by
  constructor
  · have h : cexSt990
        = changeZoom cexCfg (initializeDisplay cexCfg cexM initialZoomState) 990 {} := by
      rw [cex_init, cex_to990]
    rw [h]
    exact Reachable.zoom _ 990 {} (Reachable.init _)
  · have h : zoomCycle cexCfg cexSt990 = cexSt980 := by
      unfold zoomCycle
      rw [cex_in1, cex_in2, cex_out1, cex_out2]
    rw [h]
    norm_num [cexSt980, cexSt990]

/-- C5 (amended): for every state satisfying the §3 size invariant, in
scrollable mode, whose zoom readout matches its zoom level, and for which
all four steps of the in-in-out-out cycle are interior (the clamp to
[10, 1000] leaves each ±10 target unchanged and no scroll clamp engages),
the cycle restores the exact state: `currentZoomPercent` returns to its
original value and the content's geometric center moves 0px (within the
5px tolerance) on both axes; three consecutive cycles likewise restore
the state with no accumulated drift. -/
theorem zoomCycle_interior_restores (cfg : Viewport) (st : ZoomState)
    (hinv : SizeInvariant st)
    (hdisp : st.zoomLevelDisplay = zoomText st.currentZoom)
    (h1 : StepInterior cfg st (st.currentZoom + ZOOM_STEP))
    (h2 : StepInterior cfg (zoomIn cfg st) ((zoomIn cfg st).currentZoom + ZOOM_STEP))
    (h3 : StepInterior cfg (zoomIn cfg (zoomIn cfg st))
      ((zoomIn cfg (zoomIn cfg st)).currentZoom - ZOOM_STEP))
    (h4 : StepInterior cfg (zoomOut cfg (zoomIn cfg (zoomIn cfg st)))
      ((zoomOut cfg (zoomIn cfg (zoomIn cfg st))).currentZoom - ZOOM_STEP)) :
    zoomCycle cfg st = st ∧
    zoomCycle cfg (zoomCycle cfg (zoomCycle cfg st)) = st ∧
    |contentCenterX cfg (zoomCycle cfg st) - contentCenterX cfg st| ≤ 5 ∧
    |contentCenterY cfg (zoomCycle cfg st) - contentCenterY cfg st| ≤ 5 := by
  have hc := zoomCycle_eq_of_interior cfg st hinv hdisp h1 h2 h3 h4
  refine ⟨hc, by rw [hc, hc, hc], ?_, ?_⟩ <;> rw [hc] <;> norm_num

theorem zoomCycle_interior_restores_witness :
    zoomCycle cexCfg c5wit = c5wit ∧
    zoomCycle cexCfg (zoomCycle cexCfg (zoomCycle cexCfg c5wit)) = c5wit ∧
    |contentCenterX cexCfg (zoomCycle cexCfg c5wit) - contentCenterX cexCfg c5wit| ≤ 5 := by
  have ew1 : zoomIn cexCfg c5wit =
      ⟨110, 100, 1, 2000, 1500, some 2200, some 1650, 370, 250, false, zoomText 110⟩ := by
    norm_num [zoomIn, changeZoom, cexCfg, c5wit, getContainerOffsets, offsetW, offsetH,
      MIN_ZOOM, MAX_ZOOM, ZOOM_STEP, jsRound, min_def, max_def]
  have ew2 : zoomIn cexCfg
      (⟨110, 100, 1, 2000, 1500, some 2200, some 1650, 370, 250, false, zoomText 110⟩
        : ZoomState) =
      ⟨120, 100, 1, 2000, 1500, some 2400, some 1800, 440, 300, false, zoomText 120⟩ := by
    norm_num [zoomIn, changeZoom, cexCfg, getContainerOffsets, offsetW, offsetH,
      MIN_ZOOM, MAX_ZOOM, ZOOM_STEP, jsRound, min_def, max_def]
  have ew3 : zoomOut cexCfg
      (⟨120, 100, 1, 2000, 1500, some 2400, some 1800, 440, 300, false, zoomText 120⟩
        : ZoomState) =
      ⟨110, 100, 1, 2000, 1500, some 2200, some 1650, 370, 250, false, zoomText 110⟩ := by
    norm_num [zoomOut, changeZoom, cexCfg, getContainerOffsets, offsetW, offsetH,
      MIN_ZOOM, MAX_ZOOM, ZOOM_STEP, jsRound, min_def, max_def]
  have h := zoomCycle_interior_restores cexCfg c5wit
    (by norm_num [SizeInvariant, c5wit, jsRound])
    rfl
    (by norm_num [StepInterior, cexCfg, c5wit, MIN_ZOOM, MAX_ZOOM, ZOOM_STEP, jsRound,
      min_def, max_def])
    (by rw [ew1]
        norm_num [StepInterior, cexCfg, MIN_ZOOM, MAX_ZOOM, ZOOM_STEP, jsRound,
          min_def, max_def])
    (by rw [ew1, ew2]
        norm_num [StepInterior, cexCfg, MIN_ZOOM, MAX_ZOOM, ZOOM_STEP, jsRound,
          min_def, max_def])
    (by rw [ew1, ew2, ew3]
        norm_num [StepInterior, cexCfg, MIN_ZOOM, MAX_ZOOM, ZOOM_STEP, jsRound,
          min_def, max_def])
  exact ⟨h.1, h.2.1, h.2.2.1⟩

theorem initializeDisplay_measurement_failure_witness :
    (initializeDisplay ⟨800, 600, 0, 0⟩ ⟨0, 0, 0, 0, none, none⟩ initialZoomState).naturalWidth
        = 100 ∧
    (initializeDisplay ⟨800, 600, 0, 0⟩ ⟨0, 0, 0, 0, none, none⟩ initialZoomState).fitRatio
        = 1 := by
  have h := initializeDisplay_measurement_failure ⟨800, 600, 0, 0⟩ ⟨0, 0, 0, 0, none, none⟩
    initialZoomState (by norm_num [resolvedWidth, fallbackWidth, fallbackHeight])
    (by norm_num [resolvedHeight, fallbackWidth, fallbackHeight]) rfl
  refine ⟨h.1, ?_⟩
  rw [h.2.2.1]
  norm_num

end ModalZoom
